import Mathlib

/-!
Verification of RaylibOpOverloads.hpp (operator overloads for raylib value
types).  The C++ source is shallowly embedded: `float` becomes `ℚ` (exact
arithmetic), the 8-bit `unsigned char` color channels become `ℕ` together
with the C++ integral conversions made explicit (`% 256`), C++ `int`
intermediates become `ℤ`, and the `throw`ing division operators return
`Except`.  A local C++ struct that is declared uninitialized (`Color c;`)
is modelled by threading an explicit arbitrary initial value `c0` through
the field writes, in source order.
-/

namespace RaylibOpOverloads

/-- Two-component float vector (raylib `Vector2`), components as `ℚ`. -/
structure Vector2 where
  x : ℚ
  y : ℚ
deriving DecidableEq

/-- Three-component float vector (raylib `Vector3`), components as `ℚ`. -/
structure Vector3 where
  x : ℚ
  y : ℚ
  z : ℚ
deriving DecidableEq

/-- Four-component float vector (raylib `Vector4`), components as `ℚ`. -/
structure Vector4 where
  x : ℚ
  y : ℚ
  z : ℚ
  w : ℚ
deriving DecidableEq

/-- RGBA color (raylib `Color`): four `unsigned char` channels, modelled as
`ℕ`; a value actually representable in the C++ type satisfies `Valid`. -/
structure Color where
  r : ℕ
  g : ℕ
  b : ℕ
  a : ℕ
deriving DecidableEq

/-- A `Color` whose channels are in the `unsigned char` range [0,255]. -/
def Color.Valid (c : Color) : Prop :=
  c.r ≤ 255 ∧ c.g ≤ 255 ∧ c.b ≤ 255 ∧ c.a ≤ 255

instance (c : Color) : Decidable c.Valid := by
  unfold Color.Valid; infer_instance

/-- C++ conversion of an `int` value to `unsigned char`: reduction modulo
256 (`ℤ`'s `%` is the mathematical modulus, giving a value in [0,256)). -/
def intToUChar (z : ℤ) : ℕ :=
  (z % 256).toNat

/-- C++ conversion of a `float` value to `unsigned char`: truncation toward
zero, then (for the in-range values the source's clamps guarantee) the
integral conversion.  Modelled as truncation followed by `intToUChar`. -/
def floatToUChar (q : ℚ) : ℕ :=
  intToUChar (if 0 ≤ q then ⌊q⌋ else ⌈q⌉)

/-- Embedding of `operator+(const Color&, const Color&)`
(src/RaylibOpOverloads.hpp lines 98-111).  `c0` is the arbitrary initial
value of the uninitialized local `Color c;`; the four field writes are
applied to it in source order.  Note the source assigns `c.r` twice (the
second time with the clamped alpha sum) and never assigns `c.a`. -/
def colorAdd (a b c0 : Color) : Color :=
  let red : ℤ := (a.r : ℤ) + (b.r : ℤ)
  let green : ℤ := (a.g : ℤ) + (b.g : ℤ)
  let blue : ℤ := (a.b : ℤ) + (b.b : ℤ)
  let alpha : ℤ := (a.a : ℤ) + (b.a : ℤ)
  let c1 := { c0 with r := intToUChar (if red > 255 then 255 else red) }
  let c2 := { c1 with g := intToUChar (if green > 255 then 255 else green) }
  let c3 := { c2 with b := intToUChar (if blue > 255 then 255 else blue) }
  let c4 := { c3 with r := intToUChar (if alpha > 255 then 255 else alpha) }
  c4

/-- Embedding of `operator-(const Color&, const Color&)`
(src/RaylibOpOverloads.hpp lines 168-181).  As in `colorAdd`, the source
assigns `c.r` twice (the second time with the clamped alpha difference)
and never assigns `c.a`. -/
def colorSub (a b c0 : Color) : Color :=
  let red : ℤ := (a.r : ℤ) - (b.r : ℤ)
  let green : ℤ := (a.g : ℤ) - (b.g : ℤ)
  let blue : ℤ := (a.b : ℤ) - (b.b : ℤ)
  let alpha : ℤ := (a.a : ℤ) - (b.a : ℤ)
  let c1 := { c0 with r := intToUChar (if red < 0 then 0 else red) }
  let c2 := { c1 with g := intToUChar (if green < 0 then 0 else green) }
  let c3 := { c2 with b := intToUChar (if blue < 0 then 0 else blue) }
  let c4 := { c3 with r := intToUChar (if alpha < 0 then 0 else alpha) }
  c4

/-- The source's nested-ternary clamp `(v>255)?255:(v<0)?0:v` on `ℤ`. -/
def clampInt (v : ℤ) : ℤ :=
  if v > 255 then 255 else if v < 0 then 0 else v

/-- The source's nested-ternary clamp `(v>255)?255:(v<0)?0:v` on `ℚ`. -/
def clampFloat (v : ℚ) : ℚ :=
  if v > 255 then 255 else if v < 0 then 0 else v

/-- Embedding of `operator*(const Color&, const Color&)`
(src/RaylibOpOverloads.hpp lines 217-230).  Channel products are computed
in `int`, clamped by a nested ternary into [0,255], and narrowed back; as
in `colorAdd`, `c.r` is assigned twice (the second time with the clamped
alpha product) and `c.a` is never assigned. -/
def colorMulColor (a b c0 : Color) : Color :=
  let red : ℤ := (a.r : ℤ) * (b.r : ℤ)
  let green : ℤ := (a.g : ℤ) * (b.g : ℤ)
  let blue : ℤ := (a.b : ℤ) * (b.b : ℤ)
  let alpha : ℤ := (a.a : ℤ) * (b.a : ℤ)
  let c1 := { c0 with r := intToUChar (clampInt red) }
  let c2 := { c1 with g := intToUChar (clampInt green) }
  let c3 := { c2 with b := intToUChar (clampInt blue) }
  let c4 := { c3 with r := intToUChar (clampInt alpha) }
  c4

/-- Embedding of `operator*(const Color&, const float)`
(src/RaylibOpOverloads.hpp lines 237-250).  Channels are widened to
`float` (here `ℚ`), scaled, clamped by a nested ternary into [0,255], and
narrowed back; as in `colorAdd`, `c.r` is assigned twice (the second time
with the clamped alpha result) and `c.a` is never assigned. -/
def colorMulScalar (a : Color) (s : ℚ) (c0 : Color) : Color :=
  let red : ℚ := (a.r : ℚ) * s
  let green : ℚ := (a.g : ℚ) * s
  let blue : ℚ := (a.b : ℚ) * s
  let alpha : ℚ := (a.a : ℚ) * s
  let c1 := { c0 with r := floatToUChar (clampFloat red) }
  let c2 := { c1 with g := floatToUChar (clampFloat green) }
  let c3 := { c2 with b := floatToUChar (clampFloat blue) }
  let c4 := { c3 with r := floatToUChar (clampFloat alpha) }
  c4

/-- Modelled from the spec: raymath's `Vector2Scale` (not in src/), a
collaborator the spec describes as "vector times scalar componentwise
scale". -/
def Vector2Scale (v : Vector2) (s : ℚ) : Vector2 :=
  ⟨v.x * s, v.y * s⟩

/-- Modelled from the spec: raymath's `Vector3Scale` (not in src/),
componentwise scale. -/
def Vector3Scale (v : Vector3) (s : ℚ) : Vector3 :=
  ⟨v.x * s, v.y * s, v.z * s⟩

/-- Modelled from the spec: raymath's `Vector2Negate` (not in src/),
componentwise negation. -/
def Vector2Negate (v : Vector2) : Vector2 :=
  ⟨-v.x, -v.y⟩

/-- Modelled from the spec: raymath's `Vector3Negate` (not in src/),
componentwise negation. -/
def Vector3Negate (v : Vector3) : Vector3 :=
  ⟨-v.x, -v.y, -v.z⟩

/-- Embedding of `operator*(const Vector2&, float)`
(src/RaylibOpOverloads.hpp lines 189-191): delegates to `Vector2Scale`. -/
def vector2MulScalar (a : Vector2) (b : ℚ) : Vector2 :=
  Vector2Scale a b

/-- Embedding of `operator*(const Vector3&, float)`
(src/RaylibOpOverloads.hpp lines 193-195): delegates to `Vector3Scale`. -/
def vector3MulScalar (a : Vector3) (b : ℚ) : Vector3 :=
  Vector3Scale a b

/-- Embedding of `operator/(const Vector2&, const float)`
(src/RaylibOpOverloads.hpp lines 258-265).  The result pairs the lines the
call writes to `std::cerr` with either the thrown `std::domain_error`
(as `Except.error` carrying its message) or the returned vector.  When the
divisor is zero the source prints a diagnostic and throws; otherwise it
multiplies by the reciprocal. -/
def vector2Div (a : Vector2) (b : ℚ) : List String × Except String Vector2 :=
  if b = 0 then
    (["Division by zero error."], Except.error "Division by zero error")
  else
    let recip : ℚ := 1 / b
    ([], Except.ok (vector2MulScalar a recip))

/-- Embedding of `operator/(const Vector3&, const float)`
(src/RaylibOpOverloads.hpp lines 267-274), as for `vector2Div`. -/
def vector3Div (a : Vector3) (b : ℚ) : List String × Except String Vector3 :=
  if b = 0 then
    (["Division by zero error."], Except.error "Division by zero error")
  else
    let recip : ℚ := 1 / b
    ([], Except.ok (vector3MulScalar a recip))

/-- Machine epsilon for IEEE single-precision `float`
(`std::numeric_limits<float>::epsilon()` = 2^-23). -/
def floatEpsilon : ℚ := 1 / 8388608

/-- The per-component Knuth comparison used by every
`EQUALITY_OPERATOR_KNUTH` overload (src/RaylibOpOverloads.hpp lines
308-336): `fabs(a-b) <= (fabs(a) > fabs(b) ? fabs(b) : fabs(a)) * eps`. -/
def knuthEqFloat (x y : ℚ) : Bool :=
  decide (|x - y| ≤ (if |x| > |y| then |y| else |x|) * floatEpsilon)

/-- Embedding of `operator==(const Vector2&, const Vector2&)` under
`EQUALITY_OPERATOR_KNUTH` (src/RaylibOpOverloads.hpp lines 308-314). -/
def vector2Eq (a b : Vector2) : Bool :=
  let xIsEqual := knuthEqFloat a.x b.x
  let yIsEqual := knuthEqFloat a.y b.y
  xIsEqual && yIsEqual

/-- Embedding of `operator==(const Vector3&, const Vector3&)` under
`EQUALITY_OPERATOR_KNUTH` (src/RaylibOpOverloads.hpp lines 316-324). -/
def vector3Eq (a b : Vector3) : Bool :=
  let xIsEqual := knuthEqFloat a.x b.x
  let yIsEqual := knuthEqFloat a.y b.y
  let zIsEqual := knuthEqFloat a.z b.z
  xIsEqual && yIsEqual && zIsEqual

/-- Embedding of `operator==(const Vector4&, const Vector4&)` under
`EQUALITY_OPERATOR_KNUTH` (src/RaylibOpOverloads.hpp lines 326-336). -/
def vector4Eq (a b : Vector4) : Bool :=
  let xIsEqual := knuthEqFloat a.x b.x
  let yIsEqual := knuthEqFloat a.y b.y
  let zIsEqual := knuthEqFloat a.z b.z
  let wIsEqual := knuthEqFloat a.w b.w
  xIsEqual && yIsEqual && zIsEqual && wIsEqual

/-- Drops trailing `0` characters from a digit string. -/
def stripTrailingZeros (s : String) : String :=
  String.mk ((s.toList.reverse.dropWhile (fun c => c = '0')).reverse)

/-- Modelled from the spec: `std::ostream`'s `float` insertion (C++
standard library, not in src/).  The spec pins its output down only on
small integral values, which print as a plain decimal integer
("Printing Vector2{3,4} in labeled style yields exactly \"x=3, y=4\"");
that case is modelled exactly.  Non-integral values (unused by the
theorems below) are rendered in fixed point with at most six fractional
digits, approximating the default stream precision. -/
def cppFmtFloat (q : ℚ) : String :=
  if q.den = 1 then toString q.num
  else
    let sign := if q < 0 then "-" else ""
    let aq := |q|
    let ip := (⌊aq⌋).toNat
    let fracDigits := (⌊(aq - (ip : ℚ)) * 1000000⌋).toNat
    let fs := toString fracDigits
    let padded := String.mk (List.replicate (6 - fs.length) '0') ++ fs
    sign ++ toString ip ++ "." ++ stripTrailingZeros padded

/-- The two mutually exclusive compile-time vector print styles
(`PRINT_VECTORS_WITH_PARENTHESES` / `PRINT_VECTORS_BY_COMPONENT`,
src/RaylibOpOverloads.hpp lines 45-46). -/
inductive VectorPrintStyle where
  | withParentheses
  | byComponent
deriving DecidableEq

/-- Embedding of `operator<<(std::ostream&, Vector2)`: the text appended
to the stream.  Under `PRINT_VECTORS_WITH_PARENTHESES` this is the block
at src/RaylibOpOverloads.hpp lines 350-353 (`"(" << a.x << "," << a.y <<
")"`), under `PRINT_VECTORS_BY_COMPONENT` the block at lines 372-375
(`"x=" << a.x << ", y=" << a.y`). -/
def printVector2 (style : VectorPrintStyle) (a : Vector2) : String :=
  match style with
  | VectorPrintStyle.withParentheses =>
      "(" ++ cppFmtFloat a.x ++ "," ++ cppFmtFloat a.y ++ ")"
  | VectorPrintStyle.byComponent =>
      "x=" ++ cppFmtFloat a.x ++ ", y=" ++ cppFmtFloat a.y

/-- Embedding of `PixelFormatNumberToName(int)`
(src/RaylibOpOverloads.hpp lines 407-437).  The switch's case labels are
raylib's `PixelFormat` enumerators; their numeric values 1..21 come from
raylib.h (a collaborator header not in src/), in declaration order
starting at `PIXELFORMAT_UNCOMPRESSED_GRAYSCALE = 1`.  Every
unrecognized code falls through to the `default:` branch. -/
def PixelFormatNumberToName (format : ℤ) : String :=
  if format = 1 then "PIXELFORMAT_UNCOMPRESSED_GRAYSCALE, 8 bit per pixel (no alpha)"
  else if format = 2 then "PIXELFORMAT_UNCOMPRESSED_GRAY_ALPHA, 8*2 bpp (2 channels)"
  else if format = 3 then "PIXELFORMAT_UNCOMPRESSED_R5G6B5, 16 bpp"
  else if format = 4 then "PIXELFORMAT_UNCOMPRESSED_R8G8B8, 24 bpp"
  else if format = 5 then "PIXELFORMAT_UNCOMPRESSED_R5G5B5A1, 16 bpp (1 bit alpha)"
  else if format = 6 then "PIXELFORMAT_UNCOMPRESSED_R4G4B4A4, 16 bpp (4 bit alpha)"
  else if format = 7 then "PIXELFORMAT_UNCOMPRESSED_R8G8B8A8, 32 bpp"
  else if format = 8 then "PIXELFORMAT_UNCOMPRESSED_R32, 32 bpp (1 channel - float)"
  else if format = 9 then "PIXELFORMAT_UNCOMPRESSED_R32G32B32, 32*3 bpp (3 channels - float)"
  else if format = 10 then "PIXELFORMAT_UNCOMPRESSED_R32G32B32A32, 32*4 bpp (4 channels - float)"
  else if format = 11 then "PIXELFORMAT_COMPRESSED_DXT1_RGB, 4 bpp (no alpha)"
  else if format = 12 then "PIXELFORMAT_COMPRESSED_DXT1_RGBA, 4 bpp (1 bit alpha)"
  else if format = 13 then "PIXELFORMAT_COMPRESSED_DXT3_RGBA, 8 bpp"
  else if format = 14 then "PIXELFORMAT_COMPRESSED_DXT5_RGBA, 8 bpp"
  else if format = 15 then "PIXELFORMAT_COMPRESSED_ETC1_RGB, 4 bpp"
  else if format = 16 then "PIXELFORMAT_COMPRESSED_ETC2_RGB, 4 bpp"
  else if format = 17 then "PIXELFORMAT_COMPRESSED_ETC2_EAC_RGBA, 8 bpp"
  else if format = 18 then "PIXELFORMAT_COMPRESSED_PVRT_RGB, 4 bpp"
  else if format = 19 then "PIXELFORMAT_COMPRESSED_PVRT_RGBA, 4 bpp"
  else if format = 20 then "PIXELFORMAT_COMPRESSED_ASTC_4x4_RGBA, 8 bpp"
  else if format = 21 then "PIXELFORMAT_COMPRESSED_ASTC_8x8_RGBA, 2 bpp"
  else "Unrecognized PixelFormat number"

/-- Pointwise update of a store of `Vector2` variables; models assignment
through a C++ reference. -/
def updateStore2 (σ : String → Vector2) (x : String) (v : Vector2) :
    String → Vector2 :=
  fun y => if y = x then v else σ y

/-- Pointwise update of a store of `Vector3` variables. -/
def updateStore3 (σ : String → Vector3) (x : String) (v : Vector3) :
    String → Vector3 :=
  fun y => if y = x then v else σ y

/-- Embedding of the unary `Vector2& operator-(Vector2& a)`
(src/RaylibOpOverloads.hpp lines 119-122).  References are modelled by
variable names in a store `σ`: the operator assigns
`a = Vector2Negate(a)` and returns the reference `a` itself, so the
result is the updated store paired with the name of the returned
reference. -/
def unaryMinusVector2 (σ : String → Vector2) (a : String) :
    (String → Vector2) × String :=
  (updateStore2 σ a (Vector2Negate (σ a)), a)

/-- Embedding of the unary `Vector3& operator-(Vector3& a)`
(src/RaylibOpOverloads.hpp lines 124-127), as for `unaryMinusVector2`. -/
def unaryMinusVector3 (σ : String → Vector3) (a : String) :
    (String → Vector3) × String :=
  (updateStore3 σ a (Vector3Negate (σ a)), a)

/-! ### Helper lemmas -/

/-- The nested-ternary float clamp really lands in [0,255]. -/
lemma clampFloat_mem (q : ℚ) : 0 ≤ clampFloat q ∧ clampFloat q ≤ 255 := by
  unfold clampFloat
  split_ifs with h1 h2
  · exact ⟨by norm_num, le_refl _⟩
  · exact ⟨le_refl _, by norm_num⟩
  · push_neg at h1 h2
    exact ⟨h2, h1⟩

/-- Narrowing a clamped float channel back to `unsigned char` stays in
[0,255]. -/
lemma floatToUChar_clampFloat_le (q : ℚ) : floatToUChar (clampFloat q) ≤ 255 := by
  obtain ⟨h0, h1⟩ := clampFloat_mem q
  unfold floatToUChar intToUChar
  rw [if_pos h0]
  have hf0 : 0 ≤ ⌊clampFloat q⌋ := Int.floor_nonneg.mpr h0
  have hf1 : ⌊clampFloat q⌋ ≤ 255 := by
    have h2 : ⌊clampFloat q⌋ ≤ ⌊(255 : ℚ)⌋ := Int.floor_le_floor h1
    simpa using h2
  omega

/-- Narrowing a clamped float channel equals plain truncation of the
clamped value (the modulus is invisible in range). -/
lemma floatToUChar_clampFloat_eq (q : ℚ) :
    floatToUChar (clampFloat q) = (⌊clampFloat q⌋).toNat := by
  obtain ⟨h0, h1⟩ := clampFloat_mem q
  unfold floatToUChar intToUChar
  rw [if_pos h0]
  have hf0 : 0 ≤ ⌊clampFloat q⌋ := Int.floor_nonneg.mpr h0
  have hf1 : ⌊clampFloat q⌋ ≤ 255 := by
    have h2 : ⌊clampFloat q⌋ ≤ ⌊(255 : ℚ)⌋ := Int.floor_le_floor h1
    simpa using h2
  omega

/-! ### C1 -/

/-- C1: in `operator+(Color,Color)` and `operator-(Color,Color)`, for
every pair of input colors the clamped alpha result is what ends up in
the returned red channel (overwriting the red sum or difference written
earlier), and the returned alpha field is whatever the uninitialized
local `c` held before the call — it is never assigned. -/
theorem color_add_sub_alpha_written_to_red (a b c0 : Color)
    (ha : a.Valid) (hb : b.Valid) :
    ((colorAdd a b c0).r = min (a.a + b.a) 255 ∧
     (colorAdd a b c0).a = c0.a) ∧
    ((colorSub a b c0).r = a.a - b.a ∧
     (colorSub a b c0).a = c0.a) := by
  obtain ⟨_, _, _, ha4⟩ := ha
  obtain ⟨_, _, _, hb4⟩ := hb
  refine ⟨⟨?_, ?_⟩, ⟨?_, ?_⟩⟩ <;>
    simp only [colorAdd, colorSub, intToUChar] <;>
    split <;> omega

/-- Witness for C1 at concrete colors. -/
theorem color_add_sub_alpha_written_to_red_witness :
    ((colorAdd ⟨1, 2, 3, 250⟩ ⟨5, 6, 7, 10⟩ ⟨9, 9, 9, 42⟩).r =
       min (250 + 10) 255 ∧
     (colorAdd ⟨1, 2, 3, 250⟩ ⟨5, 6, 7, 10⟩ ⟨9, 9, 9, 42⟩).a =
       (⟨9, 9, 9, 42⟩ : Color).a) ∧
    ((colorSub ⟨1, 2, 3, 250⟩ ⟨5, 6, 7, 10⟩ ⟨9, 9, 9, 42⟩).r = 250 - 10 ∧
     (colorSub ⟨1, 2, 3, 250⟩ ⟨5, 6, 7, 10⟩ ⟨9, 9, 9, 42⟩).a =
       (⟨9, 9, 9, 42⟩ : Color).a) :=
  color_add_sub_alpha_written_to_red ⟨1, 2, 3, 250⟩ ⟨5, 6, 7, 10⟩
    ⟨9, 9, 9, 42⟩ (by decide) (by decide)

/-! ### C2 -/

/-- C2: for valid inputs, every channel produced by color addition,
subtraction, color-by-color multiplication and color-by-scalar
multiplication lies in [0,255]; sums above 255 saturate to 255 and
differences below 0 saturate to 0 (shown on the green channel, the red
output being overwritten by the alpha result); and the spec's example
`Color{250,10,0,255} + Color{10,250,0,0}` yields red and green 255 and
blue 0. -/
theorem color_arith_channels_clamped :
    (∀ a b c0 : Color, a.Valid → b.Valid → c0.Valid →
      (colorAdd a b c0).Valid ∧ (colorSub a b c0).Valid ∧
      (colorMulColor a b c0).Valid) ∧
    (∀ (a c0 : Color) (s : ℚ), a.Valid → c0.Valid →
      (colorMulScalar a s c0).Valid) ∧
    (∀ a b c0 : Color, a.Valid → b.Valid →
      (255 < a.g + b.g → (colorAdd a b c0).g = 255) ∧
      (a.g < b.g → (colorSub a b c0).g = 0)) ∧
    (∀ c0 : Color,
      (colorAdd ⟨250, 10, 0, 255⟩ ⟨10, 250, 0, 0⟩ c0).r = 255 ∧
      (colorAdd ⟨250, 10, 0, 255⟩ ⟨10, 250, 0, 0⟩ c0).g = 255 ∧
      (colorAdd ⟨250, 10, 0, 255⟩ ⟨10, 250, 0, 0⟩ c0).b = 0) := by
  refine ⟨?_, ?_, ?_, ?_⟩
  · intro a b c0 ha hb hc
    obtain ⟨ha1, ha2, ha3, ha4⟩ := ha
    obtain ⟨hb1, hb2, hb3, hb4⟩ := hb
    obtain ⟨hc1, hc2, hc3, hc4⟩ := hc
    refine ⟨⟨?_, ?_, ?_, ?_⟩, ⟨?_, ?_, ?_, ?_⟩, ⟨?_, ?_, ?_, ?_⟩⟩ <;>
      simp only [colorAdd, colorSub, colorMulColor, clampInt, intToUChar] <;>
      (try split) <;> (try split) <;> omega
  · intro a c0 s ha hc
    obtain ⟨hc1, hc2, hc3, hc4⟩ := hc
    simp only [colorMulScalar]
    exact ⟨floatToUChar_clampFloat_le _, floatToUChar_clampFloat_le _,
      floatToUChar_clampFloat_le _, hc4⟩
  · intro a b c0 ha hb
    obtain ⟨ha1, ha2, ha3, ha4⟩ := ha
    obtain ⟨hb1, hb2, hb3, hb4⟩ := hb
    refine ⟨fun h => ?_, fun h => ?_⟩ <;>
      simp only [colorAdd, colorSub, intToUChar] <;>
      split <;> omega
  · intro c0
    refine ⟨?_, ?_, ?_⟩ <;>
      simp only [colorAdd, intToUChar] <;> decide

/-- Witness for C2 on concrete colors and scalar. -/
theorem color_arith_channels_clamped_witness :
    (colorAdd ⟨250, 10, 0, 255⟩ ⟨10, 250, 0, 0⟩ ⟨1, 2, 3, 4⟩).Valid ∧
    (colorMulScalar ⟨100, 200, 50, 255⟩ (3 / 2) ⟨1, 2, 3, 4⟩).Valid :=
  ⟨(color_arith_channels_clamped.1 ⟨250, 10, 0, 255⟩ ⟨10, 250, 0, 0⟩
      ⟨1, 2, 3, 4⟩ (by decide) (by decide) (by decide)).1,
   color_arith_channels_clamped.2.1 ⟨100, 200, 50, 255⟩ ⟨1, 2, 3, 4⟩
      (3 / 2) (by decide) (by decide)⟩

/-! ### C9 -/

/-- C9: `operator*(Color,Color)` and `operator*(Color,float)` have the
same defect as addition and subtraction: the clamped alpha product (or
scaled alpha) ends up in the returned red channel, and the returned
alpha field keeps the uninitialized local's prior value — it is never
assigned. -/
theorem color_mul_alpha_written_to_red :
    (∀ a b c0 : Color, a.Valid → b.Valid →
      (colorMulColor a b c0).r = min (a.a * b.a) 255 ∧
      (colorMulColor a b c0).a = c0.a) ∧
    (∀ (a c0 : Color) (s : ℚ),
      (colorMulScalar a s c0).r = (⌊clampFloat ((a.a : ℚ) * s)⌋).toNat ∧
      (colorMulScalar a s c0).a = c0.a) := by
  constructor
  · intro a b c0 ha hb
    obtain ⟨_, _, _, ha4⟩ := ha
    obtain ⟨_, _, _, hb4⟩ := hb
    have hcast : ((a.a : ℤ) * (b.a : ℤ)) = ((a.a * b.a : ℕ) : ℤ) := by
      push_cast
      ring
    constructor
    · simp only [colorMulColor, clampInt, intToUChar, hcast]
      split <;> try split
      all_goals omega
    · simp only [colorMulColor]
  · intro a c0 s
    exact ⟨floatToUChar_clampFloat_eq _, rfl⟩

/-- Witness for C9 at concrete colors. -/
theorem color_mul_alpha_written_to_red_witness :
    (colorMulColor ⟨2, 3, 4, 20⟩ ⟨5, 6, 7, 10⟩ ⟨9, 9, 9, 42⟩).r =
      min (20 * 10) 255 ∧
    (colorMulColor ⟨2, 3, 4, 20⟩ ⟨5, 6, 7, 10⟩ ⟨9, 9, 9, 42⟩).a =
      (⟨9, 9, 9, 42⟩ : Color).a :=
  color_mul_alpha_written_to_red.1 ⟨2, 3, 4, 20⟩ ⟨5, 6, 7, 10⟩
    ⟨9, 9, 9, 42⟩ (by decide) (by decide)

/-! ### C3 -/

/-- C3: dividing any `Vector2` or `Vector3` by a scalar equal to exactly
zero emits the diagnostic line and produces the thrown
`std::domain_error` — no vector value (finite, infinite or NaN) is ever
returned on that path. -/
theorem vector_div_by_zero_errors :
    (∀ a : Vector2,
      vector2Div a 0 =
        (["Division by zero error."], Except.error "Division by zero error") ∧
      ∀ v : Vector2, (vector2Div a 0).2 ≠ Except.ok v) ∧
    (∀ a : Vector3,
      vector3Div a 0 =
        (["Division by zero error."], Except.error "Division by zero error") ∧
      ∀ v : Vector3, (vector3Div a 0).2 ≠ Except.ok v) := by
  constructor <;> intro a <;>
    refine ⟨by simp [vector2Div, vector3Div], fun v h => ?_⟩ <;>
    simp [vector2Div, vector3Div] at h

/-! ### C4 -/

/-- The source's ternary `(|x| > |y| ? |y| : |x|)` picks the smaller
absolute value. -/
lemma ternary_abs_eq_min (x y : ℚ) :
    (if |x| > |y| then |y| else |x|) = min |x| |y| := by
  rcases le_or_lt |x| |y| with h | h
  · rw [if_neg (not_lt.mpr h), min_eq_left h]
  · rw [if_pos h, min_eq_right h.le]

/-- The per-component Knuth test is exactly the spec's formula: the
absolute difference is at most machine epsilon times the smaller of the
two absolute values. -/
lemma knuthEqFloat_iff (x y : ℚ) :
    knuthEqFloat x y = true ↔ |x - y| ≤ floatEpsilon * min |x| |y| := by
  unfold knuthEqFloat
  rw [decide_eq_true_eq, ternary_abs_eq_min, mul_comm]

/-- C4: the Knuth equality overloads on `Vector2`, `Vector3` and
`Vector4` return true iff every corresponding component pair differs by
at most float machine epsilon times the smaller of the two components'
absolute values. -/
theorem knuth_equality_iff_min_epsilon :
    (∀ a b : Vector2, vector2Eq a b = true ↔
      (|a.x - b.x| ≤ floatEpsilon * min |a.x| |b.x| ∧
       |a.y - b.y| ≤ floatEpsilon * min |a.y| |b.y|)) ∧
    (∀ a b : Vector3, vector3Eq a b = true ↔
      (|a.x - b.x| ≤ floatEpsilon * min |a.x| |b.x| ∧
       |a.y - b.y| ≤ floatEpsilon * min |a.y| |b.y| ∧
       |a.z - b.z| ≤ floatEpsilon * min |a.z| |b.z|)) ∧
    (∀ a b : Vector4, vector4Eq a b = true ↔
      (|a.x - b.x| ≤ floatEpsilon * min |a.x| |b.x| ∧
       |a.y - b.y| ≤ floatEpsilon * min |a.y| |b.y| ∧
       |a.z - b.z| ≤ floatEpsilon * min |a.z| |b.z| ∧
       |a.w - b.w| ≤ floatEpsilon * min |a.w| |b.w|)) := by
  refine ⟨fun a b => ?_, fun a b => ?_, fun a b => ?_⟩ <;>
    simp only [vector2Eq, vector3Eq, vector4Eq, Bool.and_eq_true,
      knuthEqFloat_iff, and_assoc]

/-! ### C10 -/

/-- When one operand is exactly zero the Knuth tolerance collapses to
zero, so the component test accepts only an exactly-zero partner. -/
lemma knuthEqFloat_zero_iff (y : ℚ) : knuthEqFloat 0 y = true ↔ y = 0 := by
  rw [knuthEqFloat_iff]
  simp [abs_nonneg, min_eq_left, abs_nonpos_iff]

/-- C10: under Knuth equality, a component pair with one side exactly
zero compares equal iff the other side is exactly zero; consequently a
`Vector2` with a zero x component can compare equal only to vectors
whose x component is exactly zero. -/
theorem knuth_zero_component_collapses :
    (∀ x y : ℚ, x = 0 → (knuthEqFloat x y = true ↔ y = 0)) ∧
    (∀ a b : Vector2, a.x = 0 → vector2Eq a b = true → b.x = 0) := by
  constructor
  · intro x y hx
    subst hx
    exact knuthEqFloat_zero_iff y
  · intro a b hx h
    simp only [vector2Eq, Bool.and_eq_true] at h
    rw [hx] at h
    exact (knuthEqFloat_zero_iff b.x).mp h.1

/-- Witness for C10: with a zero left component, a partner of 1 is
rejected and a partner of 0 accepted. -/
theorem knuth_zero_component_collapses_witness :
    (knuthEqFloat 0 1 = true ↔ (1 : ℚ) = 0) ∧
    (knuthEqFloat 0 0 = true ↔ (0 : ℚ) = 0) :=
  ⟨knuth_zero_component_collapses.1 0 1 rfl,
   knuth_zero_component_collapses.1 0 0 rfl⟩

/-! ### C6 -/

/-- C6: `PixelFormatNumberToName` is total — every integer code yields
some string; each of the 21 recognized codes yields its fixed
descriptive string, and every unrecognized integer yields the fallback
string. -/
theorem pixelFormat_lookup_total :
    (∀ n : ℤ, ∃ s : String, PixelFormatNumberToName n = s) ∧
    (PixelFormatNumberToName 1 =
       "PIXELFORMAT_UNCOMPRESSED_GRAYSCALE, 8 bit per pixel (no alpha)" ∧
     PixelFormatNumberToName 2 =
       "PIXELFORMAT_UNCOMPRESSED_GRAY_ALPHA, 8*2 bpp (2 channels)" ∧
     PixelFormatNumberToName 3 = "PIXELFORMAT_UNCOMPRESSED_R5G6B5, 16 bpp" ∧
     PixelFormatNumberToName 4 = "PIXELFORMAT_UNCOMPRESSED_R8G8B8, 24 bpp" ∧
     PixelFormatNumberToName 5 =
       "PIXELFORMAT_UNCOMPRESSED_R5G5B5A1, 16 bpp (1 bit alpha)" ∧
     PixelFormatNumberToName 6 =
       "PIXELFORMAT_UNCOMPRESSED_R4G4B4A4, 16 bpp (4 bit alpha)" ∧
     PixelFormatNumberToName 7 = "PIXELFORMAT_UNCOMPRESSED_R8G8B8A8, 32 bpp" ∧
     PixelFormatNumberToName 8 =
       "PIXELFORMAT_UNCOMPRESSED_R32, 32 bpp (1 channel - float)" ∧
     PixelFormatNumberToName 9 =
       "PIXELFORMAT_UNCOMPRESSED_R32G32B32, 32*3 bpp (3 channels - float)" ∧
     PixelFormatNumberToName 10 =
       "PIXELFORMAT_UNCOMPRESSED_R32G32B32A32, 32*4 bpp (4 channels - float)" ∧
     PixelFormatNumberToName 11 =
       "PIXELFORMAT_COMPRESSED_DXT1_RGB, 4 bpp (no alpha)" ∧
     PixelFormatNumberToName 12 =
       "PIXELFORMAT_COMPRESSED_DXT1_RGBA, 4 bpp (1 bit alpha)" ∧
     PixelFormatNumberToName 13 = "PIXELFORMAT_COMPRESSED_DXT3_RGBA, 8 bpp" ∧
     PixelFormatNumberToName 14 = "PIXELFORMAT_COMPRESSED_DXT5_RGBA, 8 bpp" ∧
     PixelFormatNumberToName 15 = "PIXELFORMAT_COMPRESSED_ETC1_RGB, 4 bpp" ∧
     PixelFormatNumberToName 16 = "PIXELFORMAT_COMPRESSED_ETC2_RGB, 4 bpp" ∧
     PixelFormatNumberToName 17 =
       "PIXELFORMAT_COMPRESSED_ETC2_EAC_RGBA, 8 bpp" ∧
     PixelFormatNumberToName 18 = "PIXELFORMAT_COMPRESSED_PVRT_RGB, 4 bpp" ∧
     PixelFormatNumberToName 19 = "PIXELFORMAT_COMPRESSED_PVRT_RGBA, 4 bpp" ∧
     PixelFormatNumberToName 20 =
       "PIXELFORMAT_COMPRESSED_ASTC_4x4_RGBA, 8 bpp" ∧
     PixelFormatNumberToName 21 =
       "PIXELFORMAT_COMPRESSED_ASTC_8x8_RGBA, 2 bpp") ∧
    (∀ n : ℤ, (n < 1 ∨ 21 < n) →
      PixelFormatNumberToName n = "Unrecognized PixelFormat number") := by
  refine ⟨fun n => ⟨PixelFormatNumberToName n, rfl⟩, ?_, ?_⟩
  · repeat constructor
  · intro n hn
    unfold PixelFormatNumberToName
    repeat rw [if_neg (by omega)]

/-- Witness for C6: an out-of-range code hits the fallback string. -/
theorem pixelFormat_lookup_total_witness :
    PixelFormatNumberToName 99 = "Unrecognized PixelFormat number" :=
  pixelFormat_lookup_total.2.2 99 (Or.inr (by norm_num))

/-! ### C7 -/

/-- C7: printing `Vector2{3,4}` appends exactly `"x=3, y=4"` under the
labeled-component style and exactly `"(3,4)"` under the parenthesized
style. -/
theorem print_vector2_styles :
    printVector2 VectorPrintStyle.byComponent ⟨3, 4⟩ = "x=3, y=4" ∧
    printVector2 VectorPrintStyle.withParentheses ⟨3, 4⟩ = "(3,4)" := by
  constructor <;> rfl

/-! ### C8 -/

/-- Reading the variable just written through a reference yields the
written value. -/
lemma updateStore2_same (σ : String → Vector2) (x : String) (v : Vector2) :
    updateStore2 σ x v x = v := by
  simp [updateStore2]

/-- Reading any other variable is unaffected by the write. -/
lemma updateStore2_other (σ : String → Vector2) (x : String) (v : Vector2)
    (y : String) (h : y ≠ x) : updateStore2 σ x v y = σ y := by
  simp [updateStore2, h]

/-- Reading the variable just written through a reference yields the
written value. -/
lemma updateStore3_same (σ : String → Vector3) (x : String) (v : Vector3) :
    updateStore3 σ x v x = v := by
  simp [updateStore3]

/-- Reading any other variable is unaffected by the write. -/
lemma updateStore3_other (σ : String → Vector3) (x : String) (v : Vector3)
    (y : String) (h : y ≠ x) : updateStore3 σ x v y = σ y := by
  simp [updateStore3, h]

/-- C8: the unary minus on `Vector2` and `Vector3` mutates its argument
in place — after the call the variable holds the componentwise negation
of its prior value, the operator returns the very same reference (the
same variable, not a copy), and no other variable changes. -/
theorem unary_minus_mutates_in_place :
    (∀ (σ : String → Vector2) (a : String),
      (unaryMinusVector2 σ a).1 a = ⟨-(σ a).x, -(σ a).y⟩ ∧
      (unaryMinusVector2 σ a).2 = a ∧
      (unaryMinusVector2 σ a).1 ((unaryMinusVector2 σ a).2) =
        ⟨-(σ a).x, -(σ a).y⟩ ∧
      (∀ y, y ≠ a → (unaryMinusVector2 σ a).1 y = σ y)) ∧
    (∀ (σ : String → Vector3) (a : String),
      (unaryMinusVector3 σ a).1 a = ⟨-(σ a).x, -(σ a).y, -(σ a).z⟩ ∧
      (unaryMinusVector3 σ a).2 = a ∧
      (unaryMinusVector3 σ a).1 ((unaryMinusVector3 σ a).2) =
        ⟨-(σ a).x, -(σ a).y, -(σ a).z⟩ ∧
      (∀ y, y ≠ a → (unaryMinusVector3 σ a).1 y = σ y)) := by
  constructor
  · intro σ a
    exact ⟨updateStore2_same σ a _, rfl, updateStore2_same σ a _,
      fun y hy => updateStore2_other σ a _ y hy⟩
  · intro σ a
    exact ⟨updateStore3_same σ a _, rfl, updateStore3_same σ a _,
      fun y hy => updateStore3_other σ a _ y hy⟩

/-- Witness for C8: a two-variable store where only the negated variable
changes. -/
theorem unary_minus_mutates_in_place_witness :
    (unaryMinusVector2 (fun _ => ⟨1, 2⟩) "a").1 "b" = ⟨1, 2⟩ :=
  (unary_minus_mutates_in_place.1 (fun _ => ⟨1, 2⟩) "a").2.2.2 "b"
    (by decide)

end RaylibOpOverloads
